import Mathlib

/-!
Shallow embedding of the errorlytic-backend vehicle routes
(src/routes/vehicles.js) and booking model (src/models/Booking.js),
with theorems settling the spec claims about them.

Ids (Mongo ObjectIds) are modelled as `Nat`; timestamps as `Int`
(milliseconds since epoch); JS strings as `String`; absent/null JS
values as `Option`.
-/

/-- JS truthiness for an optional string: `undefined`, `null` and `""`
are falsy. -/
def optTruthy : Option String → Bool
  | none => false
  | some s => s ≠ ""

/-- JS string interpolation of a possibly-undefined value:
`undefined` prints as "undefined". -/
def jsStringOfOpt : Option String → String
  | none => "undefined"
  | some s => s

/-- JS `a || b` on optional strings (used for fallback chains). -/
def jsOr (a b : Option String) : Option String :=
  if optTruthy a then a else b

/-- Prefix test on character lists (for the substring check below). -/
def listStartsWith : List Char → List Char → Bool
  | _, [] => true
  | [], _ :: _ => false
  | c :: cs, d :: ds => c == d && listStartsWith cs ds

/-- Substring occurrence test on character lists. -/
def listContainsSub : List Char → List Char → Bool
  | [], sub => sub.isEmpty
  | c :: cs, sub => listStartsWith (c :: cs) sub || listContainsSub cs sub

/-- JS `String.prototype.includes` (case-sensitive substring test),
as used in the generate-image catch block. -/
def jsIncludes (s sub : String) : Bool :=
  listContainsSub s.toList sub.toList

/-- JS `String.prototype.trim`: strip whitespace from both ends
(the `trim: true` schema option on notes fields). -/
def jsTrim (s : String) : String :=
  ⟨((s.toList.dropWhile Char.isWhitespace).reverse.dropWhile
      Char.isWhitespace).reverse⟩

/-! ## Data model -/

/-- Embedded owner contact info on a Vehicle (for unregistered owners). -/
structure OwnerInfo where
  name : Option String
  email : Option String
  phone : Option String
deriving Repr, DecidableEq

/-- A User document, as consumed by the vehicles routes
(populate selects email, profile.name, profile.phone, isActive). -/
structure UserDoc where
  id : Nat
  email : Option String
  profileName : Option String
  profilePhone : Option String
  isActive : Bool
deriving Repr, DecidableEq

/-- A Vehicle document, with the fields the vehicles routes read. -/
structure Vehicle where
  id : Nat
  ownerUserId : Option Nat
  orgId : Option Nat
  ownerInfo : Option OwnerInfo
  make : Option String
  model : Option String
  year : Option Nat
  plate : Option String
  color : Option String
  isActive : Bool
  imageUrl : Option String
  createdAt : Int
deriving Repr, DecidableEq

/-- The authenticated principal supplied by the auth middleware:
`req.user._id` and `req.user.orgId`. -/
structure Principal where
  userId : Nat
  orgId : Option Nat
deriving Repr, DecidableEq

/-- An audit-log entry as written by the generate-image handler. -/
structure AuditEntry where
  actorId : Nat
  orgId : Option Nat
  action : String
  targetType : String
  targetId : Nat
  targetMake : String
  targetModel : String
  targetYear : String
  metaImageUrl : String
  metaProvider : String
deriving Repr, DecidableEq

/-- The datastore state visible to the vehicles routes. -/
structure DB where
  vehicles : List Vehicle
  users : List UserDoc
  auditLogs : List AuditEntry
deriving Repr, DecidableEq

/-! ## Vehicle access query layer -/

/-- The ownership filter `{ $or: [{ ownerUserId: userId }, { orgId: orgId }] }`
shared by the generate-image, metrics, get-by-id and listing handlers
(vehicles.js lines 41-44, 124-126, 247-250, 286-289).  Mongo equality
against `null` matches a null-or-missing field, which `Option` equality
reproduces. -/
def accessMatch (p : Principal) (v : Vehicle) : Bool :=
  v.ownerUserId == some p.userId || v.orgId == p.orgId

/-- The accessibility invariant of the spec, stated in its words:
"v.ownerUserId == p.userId or v.orgId == p.orgId". -/
def accessSpec (p : Principal) (v : Vehicle) : Prop :=
  v.ownerUserId = some p.userId ∨ v.orgId = p.orgId

instance (p : Principal) (v : Vehicle) : Decidable (accessSpec p v) := by
  unfold accessSpec; infer_instance

/-- Handler of `GET /vehicles/:vehicleId`: `findOne({ _id, $or: [...] })`
(vehicles.js lines 247-250). -/
def getVehicleById (db : DB) (p : Principal) (vehicleId : Nat) :
    Option Vehicle :=
  db.vehicles.find? (fun v => v.id == vehicleId && accessMatch p v)

/-! ## Vehicle image generation workflow -/

/-- Request body of `POST /vehicles/generate-image`.  The vehicle id is
modelled as `Option Nat` (present or absent); year arrives as a string
and is checked numeric. -/
structure GenImageBody where
  vehicleId : Option Nat := none
  make : Option String := none
  model : Option String := none
  year : Option String := none
  color : Option String := none
deriving Repr, DecidableEq

/-- validator.js `isNumeric` (default options): an optional sign, then
`digits` or `digits* . digits`. -/
def isNumericStr (s : String) : Bool :=
  let cs := s.toList
  let cs := match cs with
    | c :: rest => if c == '+' || c == '-' then rest else c :: rest
    | [] => []
  match cs.splitOn '.' with
  | [a] => !a.isEmpty && a.all Char.isDigit
  | [a, b] => a.all Char.isDigit && !b.isEmpty && b.all Char.isDigit
  | _ => false

/-- The express-validator chain on generate-image (vehicles.js lines
18-23): returns the message of the first failing check, as surfaced in the
400 response (`errors.array()[0].msg`), or `none` when all pass. -/
def validateGenImage (b : GenImageBody) : Option String :=
  if b.vehicleId.isNone then some "Vehicle ID is required"
  else if !optTruthy b.make then some "Make is required"
  else if !optTruthy b.model then some "Model is required"
  else if !(match b.year with
            | some y => isNumericStr y
            | none => false) then some "Year must be a number"
  else none

/-- Arguments handed to the external image-generation collaborator. -/
structure GenArgs where
  make : String
  model : String
  year : String
  color : String
deriving Repr, DecidableEq

/-- The argument object built at vehicles.js lines 56-61, with the
color fallback chain `color || vehicle.color || "silver"`. -/
def genArgs (b : GenImageBody) (vehicle : Vehicle) : GenArgs :=
  { make := jsStringOfOpt b.make
    model := jsStringOfOpt b.model
    year := jsStringOfOpt b.year
    color := jsStringOfOpt (jsOr b.color (jsOr vehicle.color (some "silver"))) }

/-- Outcome of the generate-image handler, one constructor per
response branch (200 / 400 / 404 / 429 / 500). -/
inductive GenImageResult where
  | validationError (detail : String)
  | notFound
  | rateLimited
  | internalError
  | ok (vehicleId : Nat) (imageUrl : String)
deriving Repr, DecidableEq

/-- The `POST /vehicles/generate-image` handler (vehicles.js lines
15-112).  The provider call is a parameter returning either an image
URL or an error message; on error the catch block classifies messages
containing "quota" or "rate limit" as 429 and everything else as 500.
On success the vehicle field `imageUrl` is saved and an audit entry is
appended. -/
def generateImage (db : DB) (p : Principal) (b : GenImageBody)
    (provider : GenArgs → Except String String) : GenImageResult × DB :=
  match validateGenImage b with
  | some msg => (.validationError msg, db)
  | none =>
    match b.vehicleId with
    | none => (.validationError "Vehicle ID is required", db)
    | some vid =>
      match getVehicleById db p vid with
      | none => (.notFound, db)
      | some vehicle =>
        match provider (genArgs b vehicle) with
        | .error msg =>
          if jsIncludes msg "quota" || jsIncludes msg "rate limit" then
            (.rateLimited, db)
          else
            (.internalError, db)
        | .ok url =>
          let newVehicles := db.vehicles.map (fun v =>
            if v.id == vehicle.id then { v with imageUrl := some url } else v)
          let entry : AuditEntry :=
            { actorId := p.userId
              orgId := p.orgId
              action := "vehicle_image_generated"
              targetType := "vehicle"
              targetId := vid
              targetMake := jsStringOfOpt b.make
              targetModel := jsStringOfOpt b.model
              targetYear := jsStringOfOpt b.year
              metaImageUrl := url
              metaProvider := "openai-dalle" }
          (.ok vehicle.id url,
           { db with vehicles := newVehicles
                     auditLogs := db.auditLogs ++ [entry] })

/-! ## Vehicle listing (`GET /vehicles`) -/

/-- Query parameters of `GET /vehicles` (vehicles.js line 284):
page defaults to 1, limit to 10; search and ownerId are optional. -/
structure ListParams where
  page : Option Nat := none
  limit : Option Nat := none
  search : Option String := none
  ownerId : Option Nat := none
deriving Repr, DecidableEq

/-- Case-insensitive substring match, the semantics of
`{ $regex: search, $options: "i" }` for a plain search string. -/
def ciContains (s sub : String) : Bool :=
  jsIncludes s.toLower sub.toLower

/-- One `$or` search clause over plate, make, model and the embedded
owner name (vehicles.js lines 305-312); a missing field never
matches. -/
def searchMatch (search : String) (v : Vehicle) : Bool :=
  (match v.plate with
   | some f => ciContains f search
   | none => false) ||
  (match v.make with
   | some f => ciContains f search
   | none => false) ||
  (match v.model with
   | some f => ciContains f search
   | none => false) ||
  (match v.ownerInfo.bind OwnerInfo.name with
   | some f => ciContains f search
   | none => false)

/-- The listing query built at vehicles.js lines 286-313.  Without an
`ownerId` it is the ownership `$or` plus `isActive: true`; with an
`ownerId` the `$or` is deleted and replaced by `ownerUserId: ownerId`
(plus `orgId` when the caller has one), `isActive: true` remaining.
An empty search string is falsy in JS, so it adds no clause. -/
def listFilter (p : Principal) (q : ListParams) (v : Vehicle) : Bool :=
  (match q.ownerId with
   | some o =>
       v.ownerUserId == some o && v.isActive &&
       (match p.orgId with
        | some g => v.orgId == some g
        | none => true)
   | none => accessMatch p v && v.isActive) &&
  (if optTruthy q.search then searchMatch (q.search.getD "") v else true)

/-- All vehicles matching the listing query (the set `countDocuments`
counts and `find` pages through). -/
def listMatched (db : DB) (p : Principal) (q : ListParams) : List Vehicle :=
  db.vehicles.filter (listFilter p q)

/-- Mongo `sort({ createdAt: -1 })`: newest first. -/
def sortByCreatedDesc (vs : List Vehicle) : List Vehicle :=
  List.insertionSort (fun a b => b.createdAt ≤ a.createdAt) vs

/-- Mongoose `populate("ownerUserId", ...)`: resolve the owning user,
`none` when the vehicle has no owner or the referenced user does not
exist. -/
def populateOwner (db : DB) (v : Vehicle) : Option UserDoc :=
  v.ownerUserId.bind (fun uid => db.users.find? (fun u => u.id == uid))

/-- One record of the listing response: the raw booking-form shape
(vehicles.js lines 329-336) or the enriched list shape (lines
339-348). -/
inductive ListItem where
  | raw (id : Nat) (make : Option String) (model : Option String)
      (year : Option Nat) (plate : Option String)
  | enriched (id : Nat) (name : String) (registrationNo : String)
      (carType : String) (email : String) (status : String)
      (vehicleId : Nat) (ownerId : Option Nat)
deriving Repr, DecidableEq

/-- JS `o || ""` on an optional string. -/
def orEmpty (o : Option String) : String :=
  if optTruthy o then o.getD "" else ""

/-- The enriched projection of one vehicle (vehicles.js lines
339-348). -/
def projectEnriched (db : DB) (v : Vehicle) : ListItem :=
  let owner := populateOwner db v
  let carType := jsTrim (orEmpty v.make ++ " " ++ orEmpty v.model)
  ListItem.enriched v.id
    ((jsOr (v.ownerInfo.bind OwnerInfo.name)
        (jsOr (owner.bind UserDoc.profileName) (some "N/A"))).getD "N/A")
    ((jsOr v.plate (some "N/A")).getD "N/A")
    (if carType = "" then "N/A" else carType)
    ((jsOr (owner.bind UserDoc.email) (some "N/A")).getD "N/A")
    (if v.isActive && ((owner.map UserDoc.isActive).getD false)
     then "Active" else "Inactive")
    v.id
    (owner.map UserDoc.id)

/-- The raw projection of one vehicle (vehicles.js lines 329-336). -/
def projectRaw (v : Vehicle) : ListItem :=
  ListItem.raw v.id v.make v.model v.year v.plate

/-- The listing response body (vehicles.js lines 351-358). -/
structure ListResponse where
  data : List ListItem
  total : Nat
  page : Nat
  limit : Nat
  pages : Nat
deriving Repr, DecidableEq

/-- The `GET /vehicles` handler (vehicles.js lines 280-367): filter,
sort by creation time descending, skip `(page-1)*limit`, take `limit`,
project each record, and report `total` and `pages = ceil(total/limit)`
from the same filter. -/
def listVehicles (db : DB) (p : Principal) (q : ListParams) : ListResponse :=
  let pg := q.page.getD 1
  let lim := q.limit.getD 10
  let matched := listMatched db p q
  let pageVs := ((sortByCreatedDesc matched).drop ((pg - 1) * lim)).take lim
  { data := pageVs.map (fun v =>
      match q.ownerId with
      | some _ => projectRaw v
      | none => projectEnriched db v)
    total := matched.length
    page := pg
    limit := lim
    pages := (matched.length + lim - 1) / lim }

/-! ## Metrics (`GET /vehicles/metrics`) -/

/-- The metrics response body (vehicles.js lines 147-155). -/
structure MetricsData where
  totalUsers : Nat
  totalCars : Nat
  activeUsers : Nat
  changePercentage : Rat
deriving Repr, DecidableEq

/-- Count `countDocuments(query)` under the ownership filter
(vehicles.js line 129). -/
def totalCarsCount (db : DB) (p : Principal) : Nat :=
  (db.vehicles.filter (accessMatch p)).length

/-- Count `countDocuments({ ...query, isActive: true })` (vehicles.js line
132).  The handler computes this value but never places it in the
response. -/
def activeCarsCount (db : DB) (p : Principal) : Nat :=
  (db.vehicles.filter (fun v => accessMatch p v && v.isActive)).length

/-- The distinct non-null owner ids of accessible vehicles
(vehicles.js lines 135-136: map to `ownerUserId?.toString()`, filter
out falsy, collect into a Set). -/
def uniqueOwnerIds (db : DB) (p : Principal) : List Nat :=
  ((db.vehicles.filter (accessMatch p)).filterMap Vehicle.ownerUserId).dedup

/-- Count `User.countDocuments({ _id: { $in: ids }, isActive: true })`
(vehicles.js lines 142-145). -/
def activeUsersCount (db : DB) (p : Principal) : Nat :=
  (db.users.filter (fun u =>
    (uniqueOwnerIds db p).contains u.id && u.isActive)).length

/-- The `GET /vehicles/metrics` handler (vehicles.js lines 119-164).
The response carries `totalUsers`, `totalCars`, `activeUsers` and the
hardcoded placeholder `changePercentage: 4.6`; the active-vehicle count
of line 132 is not part of it. -/
def getMetrics (db : DB) (p : Principal) : MetricsData :=
  { totalUsers := (uniqueOwnerIds db p).length
    totalCars := totalCarsCount db p
    activeUsers := activeUsersCount db p
    changePercentage := 4.6 }

/-! ## Client roster (`GET /vehicles/clients`) -/

/-- One roster entry (vehicles.js lines 196-202 and 208-214). -/
structure ClientEntry where
  id : String
  name : String
  email : String
  phone : String
  kind : String
deriving Repr, DecidableEq

/-- The entry one vehicle contributes, if any (vehicles.js lines
192-217): a registered entry keyed by the populated owner id, or —
when the populated owner is null and the embedded owner name is
truthy — an embedded entry keyed by `info_` plus phone-or-email. -/
def clientEntryOf (db : DB) (v : Vehicle) : Option ClientEntry :=
  match populateOwner db v with
  | some u =>
      some { id := toString u.id
             name := (jsOr u.profileName (some "Unknown")).getD "Unknown"
             email := orEmpty u.email
             phone := orEmpty u.profilePhone
             kind := "registered" }
  | none =>
      match v.ownerInfo with
      | some info =>
          if optTruthy info.name then
            some { id := "info_" ++ jsStringOfOpt (jsOr info.phone info.email)
                   name := info.name.getD ""
                   email := orEmpty info.email
                   phone := orEmpty info.phone
                   kind := "embedded" }
          else none
      | none => none

/-- One step of the clientsMap construction: insert the entry of the
vehicle unless its key is already present (first-seen wins). -/
def rosterFold (db : DB) (acc : List ClientEntry) (v : Vehicle) :
    List ClientEntry :=
  match clientEntryOf db v with
  | none => acc
  | some e =>
      if acc.any (fun e0 => e0.id == e.id) then acc else acc ++ [e]

/-- The vehicles the roster is built from:
`find({ orgId, isActive: true })` (vehicles.js line 184). -/
def clientsFilter (g : Nat) (v : Vehicle) : Bool :=
  v.orgId == some g && v.isActive

/-- The `GET /vehicles/clients` handler (vehicles.js lines 171-234):
400 when the caller has no organization, otherwise the deduplicated
roster in first-insertion order. -/
def getClients (db : DB) (p : Principal) : Except String (List ClientEntry) :=
  match p.orgId with
  | none => Except.error "Organization ID required"
  | some g =>
      Except.ok ((db.vehicles.filter (clientsFilter g)).foldl (rosterFold db) [])

/-! ## Booking model -/

/-- The `serviceType` enum (Booking.js lines 31-35). -/
def serviceTypes : List String :=
  ["inspection", "repair", "maintenance", "diagnostic"]

/-- The `status` enum (Booking.js lines 46-50). -/
def bookingStatuses : List String :=
  ["pending", "confirmed", "in_progress", "completed", "cancelled"]

/-- The `source` enum (Booking.js lines 69-73). -/
def bookingSources : List String :=
  ["app", "public_booking", "walk_in"]

/-- Constructor-time input for a Booking: every field optional, as in a
JS object literal passed to the model constructor. -/
structure BookingInput where
  clientId : Option Nat := none
  garageId : Option Nat := none
  vehicleId : Option Nat := none
  serviceType : Option String := none
  scheduledDate : Option Int := none
  duration : Option Int := none
  status : Option String := none
  notes : Option String := none
  garageNotes : Option String := none
  source : Option String := none
  isActive : Option Bool := none
deriving Repr, DecidableEq

/-- A Booking document after the schema setters and defaults ran:
trim on the notes fields, defaults for duration/status/source/isActive
(Booking.js lines 3-111). -/
structure BookingDoc where
  clientId : Option Nat
  garageId : Option Nat
  vehicleId : Option Nat
  serviceType : Option String
  scheduledDate : Option Int
  duration : Int
  status : String
  notes : Option String
  garageNotes : Option String
  source : String
  isActive : Bool
deriving Repr, DecidableEq

/-- Building a Booking document from constructor input: apply the
`trim` setters and the schema defaults. -/
def mkBooking (i : BookingInput) : BookingDoc :=
  { clientId := i.clientId
    garageId := i.garageId
    vehicleId := i.vehicleId
    serviceType := i.serviceType
    scheduledDate := i.scheduledDate
    duration := i.duration.getD 60
    status := i.status.getD "pending"
    notes := i.notes.map jsTrim
    garageNotes := i.garageNotes.map jsTrim
    source := i.source.getD "app"
    isActive := i.isActive.getD true }

/-- Mongoose validation of a Booking document: `required` fields
present, `enum` membership, `min: 15` on duration, `maxLength: 1000`
on the notes fields (Booking.js lines 22-60, 46-50, 69-73). -/
def validateBooking (b : BookingDoc) : Bool :=
  b.garageId.isSome &&
  (match b.serviceType with
   | some s => s ∈ serviceTypes
   | none => false) &&
  b.scheduledDate.isSome &&
  decide (15 ≤ b.duration) &&
  decide (b.status ∈ bookingStatuses) &&
  (match b.notes with
   | some s => s.length ≤ 1000
   | none => true) &&
  (match b.garageNotes with
   | some s => s.length ≤ 1000
   | none => true) &&
  decide (b.source ∈ bookingSources)

/-- The `isUpcoming` virtual (Booking.js lines 121-123):
`this.scheduledDate > new Date() && this.status !== "cancelled"`.
A missing date compares false in JS. -/
def isUpcoming (b : BookingDoc) (now : Int) : Bool :=
  match b.scheduledDate with
  | some d => now < d && b.status ≠ "cancelled"
  | none => false

/-- The `isPast` virtual (Booking.js lines 126-128):
`this.scheduledDate < new Date()`. -/
def isPast (b : BookingDoc) (now : Int) : Bool :=
  match b.scheduledDate with
  | some d => d < now
  | none => false

/-! ## Concrete instances used by witnesses -/

/-- A vehicle owned by user 7, active, with no stored color. -/
def vGen : Vehicle :=
  { id := 1, ownerUserId := some 7, orgId := none, ownerInfo := none,
    make := none, model := none, year := none, plate := none,
    color := none, isActive := true, imageUrl := none, createdAt := 0 }

/-- A one-vehicle datastore holding `vGen`. -/
def dbGen : DB := { vehicles := [vGen], users := [], auditLogs := [] }

/-- The principal owning `vGen`. -/
def pGen : Principal := { userId := 7, orgId := none }

/-- A well-formed generate-image body naming `vGen`. -/
def bGen : GenImageBody :=
  { vehicleId := some 1, make := some "Toyota", model := some "Corolla",
    year := some "2020" }

/-- Vehicle `vGen` soft-deleted: accessible by ownership but inactive. -/
def vInactive : Vehicle := { vGen with isActive := false }

/-- A datastore holding only the inactive `vInactive`. -/
def dbInactive : DB := { vehicles := [vInactive], users := [], auditLogs := [] }

/-- An inactive vehicle owned by user 5 inside organization 9. -/
def vOwned5 : Vehicle :=
  { id := 2, ownerUserId := some 5, orgId := some 9, ownerInfo := none,
    make := none, model := none, year := none, plate := none,
    color := none, isActive := false, imageUrl := none, createdAt := 0 }

/-- A datastore holding only `vOwned5`. -/
def dbOwned5 : DB := { vehicles := [vOwned5], users := [], auditLogs := [] }

/-- A principal in organization 9 (not the owner of `vOwned5`). -/
def p9 : Principal := { userId := 7, orgId := some 9 }

/-- Twelve active vehicles all owned by user 7. -/
def db12 : DB :=
  { vehicles := (List.range 12).map (fun i =>
      { id := i, ownerUserId := some 7, orgId := none, ownerInfo := none,
        make := none, model := none, year := none, plate := none,
        color := none, isActive := true, imageUrl := none,
        createdAt := (i : Int) }),
    users := [], auditLogs := [] }

/-- Three vehicles of user 1 (two active, one not) and their active
owner account. -/
def dbMetrics : DB :=
  { vehicles :=
      [{ id := 1, ownerUserId := some 1, orgId := none, ownerInfo := none,
         make := none, model := none, year := none, plate := none,
         color := none, isActive := true, imageUrl := none, createdAt := 0 },
       { id := 2, ownerUserId := some 1, orgId := none, ownerInfo := none,
         make := none, model := none, year := none, plate := none,
         color := none, isActive := true, imageUrl := none, createdAt := 1 },
       { id := 3, ownerUserId := some 1, orgId := none, ownerInfo := none,
         make := none, model := none, year := none, plate := none,
         color := none, isActive := false, imageUrl := none, createdAt := 2 }],
    users := [{ id := 1, email := none, profileName := none,
                profilePhone := none, isActive := true }],
    auditLogs := [] }

/-- The principal owning the `dbMetrics` vehicles. -/
def pMetrics : Principal := { userId := 1, orgId := none }

/-- A registered user referenced by several vehicles below. -/
def uAnn : UserDoc :=
  { id := 1, email := some "ann@x", profileName := some "Ann",
    profilePhone := some "111", isActive := true }

/-- Active vehicle of organization 9 owned by registered user 1. -/
def v10 : Vehicle :=
  { id := 10, ownerUserId := some 1, orgId := some 9, ownerInfo := none,
    make := none, model := none, year := none, plate := none,
    color := none, isActive := true, imageUrl := none, createdAt := 0 }

/-- A second vehicle of the same registered owner. -/
def v11 : Vehicle := { v10 with id := 11, createdAt := 1 }

/-- Vehicle with embedded owner "Bob", phone 123, no user account. -/
def v12 : Vehicle :=
  { v10 with id := 12, ownerUserId := none,
             ownerInfo := some { name := some "Bob", email := none,
                                 phone := some "123" },
             createdAt := 2 }

/-- A near-duplicate embedded owner sharing phone 123. -/
def v13 : Vehicle :=
  { v10 with id := 13, ownerUserId := none,
             ownerInfo := some { name := some "Bobby",
                                 email := some "b@x",
                                 phone := some "123" },
             createdAt := 3 }

/-- Vehicles of organization 9 with duplicate owners, plus the user
record of the registered owner. -/
def dbClients : DB :=
  { vehicles := [v10, v11, v12, v13], users := [uAnn], auditLogs := [] }

/-- The roster the clients handler produces for `dbClients`. -/
def rosterClients : List ClientEntry :=
  [{ id := "1", name := "Ann", email := "ann@x", phone := "111",
     kind := "registered" },
   { id := "info_123", name := "Bob", email := "", phone := "123",
     kind := "embedded" }]

/-- A booking input satisfying the duration/notes bounds and carrying
a garage reference, but lacking a serviceType. -/
def bookingNoService : BookingInput :=
  { garageId := some 1, scheduledDate := some 0, duration := some 60,
    notes := some "ok" }

/-- A 1001-character string with no surrounding whitespace. -/
def longNotes : String := String.mk (List.replicate 1001 'a')

/-! ## Theorems -/

/-- Ceiling division `(T + lim - 1) / lim` is the least number of
pages covering `T` records. -/
theorem ceil_div_spec (T lim : Nat) (hl : 0 < lim) :
    T ≤ ((T + lim - 1) / lim) * lim ∧
    ∀ m : Nat, T ≤ m * lim → (T + lim - 1) / lim ≤ m := by
  constructor
  · have h := Nat.div_add_mod (T + lim - 1) lim
    have hr : (T + lim - 1) % lim < lim := Nat.mod_lt _ hl
    rw [Nat.mul_comm]
    omega
  · intro m hm
    rw [Nat.div_le_iff_le_mul_add_pred hl]
    rw [Nat.mul_comm] at hm
    omega

/-- C9: for every Booking with a scheduled timestamp, `isUpcoming` is
true iff the timestamp is strictly in the future and the status is not
"cancelled" (hence false once the date has passed, even with status
"pending"), and `isPast` is true iff the timestamp is in the past,
independent of status. -/
theorem booking_virtuals_correct (b : BookingDoc) (now d : Int)
    (hd : b.scheduledDate = some d) :
    (isUpcoming b now = true ↔ (now < d ∧ b.status ≠ "cancelled")) ∧
    (d ≤ now → isUpcoming b now = false) ∧
    (isPast b now = true ↔ d < now) := by
  refine ⟨?_, ?_, ?_⟩
  · simp [isUpcoming, hd, decide_eq_true_iff]
  · intro hle
    simp only [isUpcoming, hd]
    have : ¬ (now < d) := not_lt.mpr hle
    simp [this]
  · simp [isPast, hd]

/-- Witness for C9 at a concrete booking. -/
theorem booking_virtuals_correct_witness :
    (isUpcoming (mkBooking { scheduledDate := some 100 }) 50 = true ↔
      ((50 : Int) < 100 ∧
        (mkBooking { scheduledDate := some 100 }).status ≠ "cancelled")) ∧
    ((100 : Int) ≤ 50 →
      isUpcoming (mkBooking { scheduledDate := some 100 }) 50 = false) ∧
    (isPast (mkBooking { scheduledDate := some 100 }) 50 = true ↔
      (100 : Int) < 50) :=
  booking_virtuals_correct (mkBooking { scheduledDate := some 100 }) 50 100
    rfl

/-- The implemented ownership filter agrees with the wording of the spec. -/
theorem accessMatch_iff (p : Principal) (v : Vehicle) :
    accessMatch p v = true ↔ accessSpec p v := by
  simp [accessMatch, accessSpec]

/-- C2: a generate-image request that passes validation but names a
vehicle id that does not exist or is not accessible to the principal
returns the not-found error, leaves every vehicle record unchanged and
writes no audit entry. -/
theorem generate_image_inaccessible_not_found
    (db : DB) (p : Principal) (b : GenImageBody)
    (provider : GenArgs → Except String String) (vid : Nat)
    (hval : validateGenImage b = none)
    (hvid : b.vehicleId = some vid)
    (hno : ∀ v ∈ db.vehicles, ¬ (v.id = vid ∧ accessSpec p v)) :
    (generateImage db p b provider).1 = GenImageResult.notFound ∧
    (generateImage db p b provider).2.vehicles = db.vehicles ∧
    (generateImage db p b provider).2.auditLogs = db.auditLogs := by
  have hfind : getVehicleById db p vid = none := by
    apply List.find?_eq_none.mpr
    intro v hv
    intro hcontra
    have h1 : v.id = vid := by
      have := (Bool.and_eq_true _ _).mp hcontra |>.1
      exact eq_of_beq this
    have h2 : accessSpec p v := by
      have := (Bool.and_eq_true _ _).mp hcontra |>.2
      exact (accessMatch_iff p v).mp this
    exact hno v hv ⟨h1, h2⟩
  simp [generateImage, hval, hvid, hfind]

/-- Witness for C2: a sole vehicle owned by someone else. -/
theorem generate_image_inaccessible_not_found_witness :
    (validateGenImage
        { vehicleId := some 1, make := some "Toyota", model := some "Corolla",
          year := some "2020" } = none) ∧
    (let db : DB :=
      { vehicles := [{ id := 1, ownerUserId := some 99, orgId := some 5,
                       ownerInfo := none, make := none, model := none,
                       year := none, plate := none, color := none,
                       isActive := true, imageUrl := none, createdAt := 0 }],
        users := [], auditLogs := [] }
     let p : Principal := { userId := 7, orgId := some 8 }
     let b : GenImageBody :=
      { vehicleId := some 1, make := some "Toyota", model := some "Corolla",
        year := some "2020" }
     let provider : GenArgs → Except String String :=
      fun _ => Except.ok "http://img"
     (generateImage db p b provider).1 = GenImageResult.notFound ∧
     (generateImage db p b provider).2.vehicles = db.vehicles ∧
     (generateImage db p b provider).2.auditLogs = db.auditLogs) :=
  ⟨by decide,
   generate_image_inaccessible_not_found _ _ _ _ 1 (by decide) rfl
     (by decide)⟩

/-- C3: when validation and vehicle resolution succeed and the provider
call fails, an error message containing "quota" or "rate limit"
(case-sensitive) yields the rate-limit (429) result with the datastore
unchanged, and any other provider failure yields the internal (500)
result, also with the datastore unchanged. -/
theorem generate_image_provider_failure
    (db : DB) (p : Principal) (b : GenImageBody)
    (provider : GenArgs → Except String String) (vid : Nat)
    (vehicle : Vehicle) (msg : String)
    (hval : validateGenImage b = none)
    (hvid : b.vehicleId = some vid)
    (hfound : getVehicleById db p vid = some vehicle)
    (hprov : provider (genArgs b vehicle) = Except.error msg) :
    ((jsIncludes msg "quota" || jsIncludes msg "rate limit") = true →
      generateImage db p b provider = (GenImageResult.rateLimited, db)) ∧
    ((jsIncludes msg "quota" || jsIncludes msg "rate limit") = false →
      generateImage db p b provider = (GenImageResult.internalError, db)) := by
  constructor <;> intro h <;>
    simp [generateImage, hval, hvid, hfound, hprov, h]

/-- Witness for C3: an accessible vehicle, one provider failing with a
"rate limit" message and one failing with an unrelated message. -/
theorem generate_image_provider_failure_witness :
    (generateImage dbGen pGen bGen
      (fun _ => Except.error "You exceeded your current quota")
      = (GenImageResult.rateLimited, dbGen)) ∧
    (generateImage dbGen pGen bGen
      (fun _ => Except.error "socket hang up")
      = (GenImageResult.internalError, dbGen)) :=
  ⟨(generate_image_provider_failure dbGen pGen bGen
      (fun _ => Except.error "You exceeded your current quota") 1 vGen
      "You exceeded your current quota" (by decide) rfl rfl rfl).1
      (by decide),
   (generate_image_provider_failure dbGen pGen bGen
      (fun _ => Except.error "socket hang up") 1 vGen
      "socket hang up" (by decide) rfl rfl rfl).2 (by decide)⟩

/-- C1 (amended): a vehicle is reachable through get-by-id iff its
owning-user field equals the user id of the principal or its
owning-organization field equals the organization id of the principal; for
the listing operation the same disjunction must hold AND the vehicle
must be active (`isActive: true` is part of the listing query). -/
theorem vehicle_access_scope (db : DB) (p : Principal) (vid : Nat)
    (v : Vehicle) :
    ((getVehicleById db p vid).isSome = true ↔
      ∃ w ∈ db.vehicles, w.id = vid ∧ accessSpec p w) ∧
    (v ∈ listMatched db p {} ↔
      v ∈ db.vehicles ∧ accessSpec p v ∧ v.isActive = true) := by
  constructor
  · rw [getVehicleById, List.find?_isSome]
    constructor
    · rintro ⟨w, hw, hpw⟩
      rw [Bool.and_eq_true] at hpw
      exact ⟨w, hw, eq_of_beq hpw.1, (accessMatch_iff p w).mp hpw.2⟩
    · rintro ⟨w, hw, hid, hacc⟩
      refine ⟨w, hw, ?_⟩
      rw [Bool.and_eq_true]
      exact ⟨by simp [hid], (accessMatch_iff p w).mpr hacc⟩
  · rw [listMatched, List.mem_filter]
    have hf : listFilter p {} v = (accessMatch p v && v.isActive) := by
      simp [listFilter, optTruthy]
    rw [hf, Bool.and_eq_true]
    constructor
    · rintro ⟨hv, hacc, hact⟩
      exact ⟨hv, (accessMatch_iff p v).mp hacc, hact⟩
    · rintro ⟨hv, hacc, hact⟩
      exact ⟨hv, (accessMatch_iff p v).mpr hacc, hact⟩

/-- Counterexample to C1 as stated: an inactive vehicle owned by the
principal satisfies the ownership disjunction yet never appears in the
listing output (its query also requires `isActive: true`). -/
theorem vehicle_access_claim_counterexample :
    accessSpec pGen vInactive ∧
    vInactive ∉ listMatched dbInactive pGen {} ∧
    (listVehicles dbInactive pGen {}).total = 0 ∧
    (listVehicles dbInactive pGen {}).data = [] := by decide

/-- C5 (amended): with an explicit ownerId the listing filter selects
exactly the vehicles whose owning-user field equals that ownerId, that
are active, and that belong to the organization of the caller when the
caller has one; the identity-OR-organization disjunction is replaced,
not ANDed. -/
theorem owner_filter_scope (db : DB) (p : Principal) (o : Nat)
    (v : Vehicle) :
    v ∈ listMatched db p { ownerId := some o } ↔
      v ∈ db.vehicles ∧ v.ownerUserId = some o ∧
        (∀ g, p.orgId = some g → v.orgId = some g) ∧ v.isActive = true := by
  rw [listMatched, List.mem_filter]
  have hf : listFilter p { ownerId := some o } v =
      (v.ownerUserId == some o && v.isActive &&
        (match p.orgId with
         | some g => v.orgId == some g
         | none => true)) := by
    simp [listFilter, optTruthy]
  rw [hf]
  cases hp : p.orgId with
  | none =>
      simp only [Bool.and_true, Bool.and_eq_true, beq_iff_eq]
      constructor
      · rintro ⟨hv, howner, hact⟩
        exact ⟨hv, howner, by simp [hp], hact⟩
      · rintro ⟨hv, howner, _, hact⟩
        exact ⟨hv, howner, hact⟩
  | some g =>
      simp only [Bool.and_eq_true, beq_iff_eq]
      constructor
      · rintro ⟨hv, ⟨howner, hact⟩, horg⟩
        refine ⟨hv, howner, ?_, hact⟩
        intro g2 hg2
        have hgg : g = g2 := Option.some.inj (hp ▸ hg2)
        exact hgg ▸ horg
      · rintro ⟨hv, howner, horg, hact⟩
        exact ⟨hv, ⟨howner, hact⟩, horg g rfl⟩

/-- Counterexample to C5 as stated: an inactive vehicle with the
requested owner and the organization of the caller is not selected, as
the ownerId branch keeps the `isActive: true` clause. -/
theorem owner_filter_claim_counterexample :
    vOwned5.ownerUserId = some 5 ∧ vOwned5.orgId = some 9 ∧
    p9.orgId = some 9 ∧
    vOwned5 ∉ listMatched dbOwned5 p9 { ownerId := some 5 } ∧
    (listVehicles dbOwned5 p9 { ownerId := some 5 }).total = 0 := by decide

/-- C7: the listing skips `(page-1)*limit` records and returns at most
`limit` of them, with `total` and `pages = ceil(total/limit)` computed
from the same filter (`pages` is the least page count covering
`total`); in particular page=2 with limit=5 over 12 matching vehicles
returns exactly 5 records with pages=3. -/
theorem pagination_correct (db : DB) (p : Principal) (q : ListParams)
    (hl : 0 < q.limit.getD 10) :
    (listVehicles db p q).total = (listMatched db p q).length ∧
    (listVehicles db p q).data.length =
      min (q.limit.getD 10)
        ((listMatched db p q).length -
          (q.page.getD 1 - 1) * (q.limit.getD 10)) ∧
    (listVehicles db p q).data.length ≤ q.limit.getD 10 ∧
    (listVehicles db p q).total ≤
      (listVehicles db p q).pages * (q.limit.getD 10) ∧
    (∀ m : Nat, (listVehicles db p q).total ≤ m * (q.limit.getD 10) →
      (listVehicles db p q).pages ≤ m) ∧
    ((listMatched db p q).length = 12 → q.page = some 2 →
      q.limit = some 5 →
      (listVehicles db p q).data.length = 5 ∧
      (listVehicles db p q).pages = 3) := by
  have htotal : (listVehicles db p q).total = (listMatched db p q).length :=
    rfl
  have hpages : (listVehicles db p q).pages =
      ((listMatched db p q).length + q.limit.getD 10 - 1) /
        q.limit.getD 10 := rfl
  have hlen : (listVehicles db p q).data.length =
      min (q.limit.getD 10)
        ((listMatched db p q).length -
          (q.page.getD 1 - 1) * (q.limit.getD 10)) := by
    simp [listVehicles, sortByCreatedDesc, List.length_insertionSort]
  obtain ⟨h1, h2⟩ :=
    ceil_div_spec (listMatched db p q).length (q.limit.getD 10) hl
  refine ⟨htotal, hlen, ?_, ?_, ?_, ?_⟩
  · rw [hlen]; exact min_le_left _ _
  · rw [htotal, hpages]; exact h1
  · intro m hm
    rw [hpages]
    exact h2 m (htotal ▸ hm)
  · intro h12 hp2 hl5
    constructor
    · rw [hlen, h12, hp2, hl5]; decide
    · rw [hpages, h12, hl5]; decide

/-- Witness for C7: page 2 with limit 5 over twelve matching vehicles
yields exactly 5 records and pages = 3. -/
theorem pagination_correct_witness :
    (listVehicles db12 pGen { page := some 2, limit := some 5 }).data.length
      = 5 ∧
    (listVehicles db12 pGen { page := some 2, limit := some 5 }).pages = 3 :=
  (pagination_correct db12 pGen { page := some 2, limit := some 5 }
    (by decide)).2.2.2.2.2 (by decide) rfl rfl

/-- C4 (amended): the metrics operation computes the total vehicle
count under the access filter, the active vehicle count (filter ANDed
with isActive), the number of distinct non-null owning-user ids among
accessible vehicles, and the count of active users in that set, plus
the static placeholder 4.6; the response carries totalCars, totalUsers,
activeUsers and the placeholder, while the active vehicle count is
computed but not part of the response. -/
theorem metrics_correct (db : DB) (p : Principal) :
    (getMetrics db p).totalCars =
      (db.vehicles.filter (fun v => decide (accessSpec p v))).length ∧
    activeCarsCount db p =
      (db.vehicles.filter
        (fun v => decide (accessSpec p v) && v.isActive)).length ∧
    (getMetrics db p).totalUsers =
      ((db.vehicles.filter (fun v => decide (accessSpec p v))).filterMap
        Vehicle.ownerUserId).toFinset.card ∧
    (getMetrics db p).activeUsers =
      (db.users.filter (fun u =>
        decide (u.id ∈
          (db.vehicles.filter (fun v => decide (accessSpec p v))).filterMap
            Vehicle.ownerUserId) && u.isActive)).length ∧
    (getMetrics db p).changePercentage = 4.6 := by
  have hfun : ∀ v : Vehicle, accessMatch p v = decide (accessSpec p v) := by
    intro v
    rw [Bool.eq_iff_iff, decide_eq_true_iff]
    exact accessMatch_iff p v
  have h1 : db.vehicles.filter (accessMatch p) =
      db.vehicles.filter (fun v => decide (accessSpec p v)) :=
    List.filter_congr (fun v _ => hfun v)
  refine ⟨?_, ?_, ?_, ?_, rfl⟩
  · show totalCarsCount db p = _
    rw [totalCarsCount, h1]
  · rw [activeCarsCount]
    congr 1
    exact List.filter_congr (fun v _ => by rw [hfun v])
  · show (uniqueOwnerIds db p).length = _
    rw [List.card_toFinset, uniqueOwnerIds, h1]
  · show activeUsersCount db p = _
    rw [activeUsersCount]
    congr 1
    refine List.filter_congr (fun u _ => ?_)
    congr 1
    rw [Bool.eq_iff_iff, decide_eq_true_iff]
    rw [uniqueOwnerIds, h1]
    constructor
    · intro hc
      exact List.mem_dedup.mp (List.elem_iff.mp hc)
    · intro hm
      exact List.elem_iff.mpr (List.mem_dedup.mpr hm)

/-- Counterexample to C4 as stated: the active vehicle count (here 2)
is computed but appears in no field of the metrics response, so the
operation does not return all four computed numbers. -/
theorem metrics_claim_counterexample :
    activeCarsCount dbMetrics pMetrics = 2 ∧
    (getMetrics dbMetrics pMetrics).totalCars ≠ 2 ∧
    (getMetrics dbMetrics pMetrics).totalUsers ≠ 2 ∧
    (getMetrics dbMetrics pMetrics).activeUsers ≠ 2 ∧
    (getMetrics dbMetrics pMetrics).changePercentage ≠ (2 : Rat) := by
  refine ⟨by decide, by decide, by decide, by decide, ?_⟩
  have h5 : (getMetrics dbMetrics pMetrics).changePercentage = (4.6 : Rat) :=
    rfl
  rw [h5]
  norm_num

/-- Entries already in the accumulator survive the roster fold. -/
theorem rosterFoldl_mem (db : DB) (vs : List Vehicle) :
    ∀ (acc : List ClientEntry) (e : ClientEntry), e ∈ acc →
      e ∈ vs.foldl (rosterFold db) acc := by
  induction vs with
  | nil => intro acc e h; simpa using h
  | cons v vs ih =>
      intro acc e h
      rw [List.foldl_cons]
      apply ih
      simp only [rosterFold]
      cases clientEntryOf db v with
      | none => exact h
      | some e2 =>
          dsimp only
          by_cases hany : acc.any (fun e0 => e0.id == e2.id) = true
          · rw [if_pos hany]; exact h
          · rw [if_neg hany]; exact List.mem_append_left _ h

/-- Every key in the folded roster comes from the accumulator or from
the entry of some vehicle. -/
theorem rosterFoldl_ids (db : DB) (vs : List Vehicle) :
    ∀ (acc : List ClientEntry) (k : String),
      k ∈ (vs.foldl (rosterFold db) acc).map ClientEntry.id →
      k ∈ acc.map ClientEntry.id ∨
        ∃ v ∈ vs, ∃ e2, clientEntryOf db v = some e2 ∧ e2.id = k := by
  induction vs with
  | nil => intro acc k h; exact Or.inl (by simpa using h)
  | cons v vs ih =>
      intro acc k h
      rw [List.foldl_cons] at h
      rcases ih (rosterFold db acc v) k h with h1 | ⟨w, hw, e2, he2, hk⟩
      · simp only [rosterFold] at h1
        cases hce : clientEntryOf db v with
        | none => rw [hce] at h1; exact Or.inl h1
        | some e2 =>
            rw [hce] at h1
            dsimp only at h1
            by_cases hany : acc.any (fun e0 => e0.id == e2.id) = true
            · rw [if_pos hany] at h1; exact Or.inl h1
            · rw [if_neg hany] at h1
              rw [List.map_append] at h1
              rcases List.mem_append.mp h1 with h2 | h2
              · exact Or.inl h2
              · simp at h2
                exact Or.inr ⟨v, by simp, e2, hce, h2.symm⟩
      · exact Or.inr ⟨w, List.mem_cons_of_mem _ hw, e2, he2, hk⟩

/-- The roster fold preserves distinctness of keys. -/
theorem rosterFoldl_nodup (db : DB) (vs : List Vehicle) :
    ∀ acc : List ClientEntry, (acc.map ClientEntry.id).Nodup →
      ((vs.foldl (rosterFold db) acc).map ClientEntry.id).Nodup := by
  induction vs with
  | nil => intro acc h; simpa using h
  | cons v vs ih =>
      intro acc h
      rw [List.foldl_cons]
      apply ih
      simp only [rosterFold]
      cases hce : clientEntryOf db v with
      | none => exact h
      | some e2 =>
          dsimp only
          by_cases hany : acc.any (fun e0 => e0.id == e2.id) = true
          · rw [if_pos hany]; exact h
          · rw [if_neg hany]
            rw [List.map_append, List.nodup_append]
            refine ⟨h, List.nodup_singleton _, ?_⟩
            intro a ha hb
            simp at hb
            apply hany
            rw [List.any_eq_true]
            rcases List.mem_map.mp ha with ⟨e0, he0, hid⟩
            refine ⟨e0, he0, ?_⟩
            rw [hid, hb]
            exact beq_self_eq_true _

/-- C6: the client roster holds at most one entry per distinct key
(registered owning-user id, or `info_`-prefixed phone-or-email for
embedded owners), however many vehicles share an owner; for the first
vehicle carrying a given key, its entry is the unique roster entry
with that key, later near-duplicates being silently ignored. -/
theorem roster_unique_clients (db : DB) (p : Principal) (g : Nat)
    (roster : List ClientEntry)
    (hg : p.orgId = some g)
    (hr : getClients db p = Except.ok roster) :
    (roster.map ClientEntry.id).Nodup ∧
    (∀ (pre post : List Vehicle) (v : Vehicle) (e : ClientEntry),
      db.vehicles.filter (clientsFilter g) = pre ++ v :: post →
      clientEntryOf db v = some e →
      (∀ w ∈ pre, ∀ e2, clientEntryOf db w = some e2 → e2.id ≠ e.id) →
      e ∈ roster ∧ ∀ e3 ∈ roster, e3.id = e.id → e3 = e) := by
  have hroster : roster =
      (db.vehicles.filter (clientsFilter g)).foldl (rosterFold db) [] := by
    rw [getClients, hg] at hr
    exact (Except.ok.inj hr).symm
  have hnd : (roster.map ClientEntry.id).Nodup := by
    rw [hroster]
    exact rosterFoldl_nodup db _ [] (by simp)
  refine ⟨hnd, ?_⟩
  intro pre post v e hsplit hce hfresh
  have hnotin : e.id ∉ (pre.foldl (rosterFold db) []).map ClientEntry.id := by
    intro hk
    rcases rosterFoldl_ids db pre [] e.id hk with h | ⟨w, hw, e2, he2, heq⟩
    · simp at h
    · exact hfresh w hw e2 he2 heq
  have hstep : rosterFold db (pre.foldl (rosterFold db) []) v =
      pre.foldl (rosterFold db) [] ++ [e] := by
    simp only [rosterFold, hce]
    rw [if_neg]
    intro hany
    rcases List.any_eq_true.mp hany with ⟨e0, he0, hbeq⟩
    have he0id : e0.id = e.id := eq_of_beq hbeq
    exact hnotin (he0id ▸ List.mem_map_of_mem _ he0)
  have hmem : e ∈ roster := by
    rw [hroster, hsplit, List.foldl_append, List.foldl_cons, hstep]
    exact rosterFoldl_mem db post _ e
      (List.mem_append_right _ (List.mem_singleton.mpr rfl))
  refine ⟨hmem, ?_⟩
  intro e3 he3 hid
  exact List.inj_on_of_nodup_map hnd he3 hmem hid

/-- Witness for C6: in a store where two vehicles share a registered
owner and two share an embedded phone key, the roster has pairwise
distinct keys and keeps the first-seen registered entry. -/
theorem roster_unique_clients_witness :
    (rosterClients.map ClientEntry.id).Nodup ∧
    ({ id := "1", name := "Ann", email := "ann@x", phone := "111",
       kind := "registered" } : ClientEntry) ∈ rosterClients :=
  ⟨(roster_unique_clients dbClients p9 9 rosterClients rfl rfl).1,
   ((roster_unique_clients dbClients p9 9 rosterClients rfl rfl).2
      [] [v11, v12, v13] v10
      { id := "1", name := "Ann", email := "ann@x", phone := "111",
        kind := "registered" }
      rfl rfl (fun w hw => (List.not_mem_nil w hw).elim)).1⟩

/-- C8 (amended): a Booking with duration 10 fails validation (min 15)
and one whose notes or garageNotes trim to more than 1000 characters
fails validation (max 1000); bookings satisfying these bounds and
carrying a garage reference are accepted provided the other required
required fields (a serviceType from its enum, a scheduled date) are
present and the enum fields are valid. -/
theorem booking_validation_bounds :
    (∀ i : BookingInput, i.duration = some 10 →
      validateBooking (mkBooking i) = false) ∧
    (∀ (i : BookingInput) (s : String), i.notes = some s →
      1000 < (jsTrim s).length → validateBooking (mkBooking i) = false) ∧
    (∀ (i : BookingInput) (s : String), i.garageNotes = some s →
      1000 < (jsTrim s).length → validateBooking (mkBooking i) = false) ∧
    (∀ i : BookingInput,
      i.garageId.isSome = true →
      (∃ s, i.serviceType = some s ∧ s ∈ serviceTypes) →
      i.scheduledDate.isSome = true →
      15 ≤ i.duration.getD 60 →
      (∀ s, i.notes = some s → (jsTrim s).length ≤ 1000) →
      (∀ s, i.garageNotes = some s → (jsTrim s).length ≤ 1000) →
      i.status.getD "pending" ∈ bookingStatuses →
      i.source.getD "app" ∈ bookingSources →
      validateBooking (mkBooking i) = true) := by
  refine ⟨?_, ?_, ?_, ?_⟩
  · intro i h
    simp [validateBooking, mkBooking, h]
  · intro i s h hlen
    have hq : ¬((jsTrim s).length ≤ 1000) := not_le.mpr hlen
    simp [validateBooking, mkBooking, h, hq]
  · intro i s h hlen
    have hq : ¬((jsTrim s).length ≤ 1000) := not_le.mpr hlen
    simp [validateBooking, mkBooking, h, hq]
  · intro i hg hst hsched hdur hnotes hgnotes hstat hsrc
    obtain ⟨sv, hsv, hsvmem⟩ := hst
    cases hn1 : i.notes with
    | none =>
        cases hn2 : i.garageNotes with
        | none =>
            simp [validateBooking, mkBooking, hsv, hsvmem, hg, hsched,
                  hdur, hstat, hsrc, hn1, hn2]
        | some s2 =>
            simp [validateBooking, mkBooking, hsv, hsvmem, hg, hsched,
                  hdur, hstat, hsrc, hn1, hn2, hgnotes s2 hn2]
    | some s1 =>
        cases hn2 : i.garageNotes with
        | none =>
            simp [validateBooking, mkBooking, hsv, hsvmem, hg, hsched,
                  hdur, hstat, hsrc, hn1, hn2, hnotes s1 hn1]
        | some s2 =>
            simp [validateBooking, mkBooking, hsv, hsvmem, hg, hsched,
                  hdur, hstat, hsrc, hn1, hn2, hnotes s1 hn1,
                  hgnotes s2 hn2]

/-- Counterexample to C8 as stated: a booking input that satisfies the
duration and notes bounds and carries a garage reference is still
rejected, because the schema also requires a serviceType. -/
theorem booking_validation_claim_counterexample :
    (mkBooking bookingNoService).garageId.isSome = true ∧
    15 ≤ (mkBooking bookingNoService).duration ∧
    ((mkBooking bookingNoService).notes.getD "").length ≤ 1000 ∧
    ((mkBooking bookingNoService).garageNotes.getD "").length ≤ 1000 ∧
    validateBooking (mkBooking bookingNoService) = false := by decide

set_option maxRecDepth 10000 in
/-- Witness for C8 at concrete bookings: duration 10 rejected, 1001
non-blank characters in either notes field rejected, and a booking
meeting every bound accepted. -/
theorem booking_validation_bounds_witness :
    validateBooking (mkBooking { duration := some 10 }) = false ∧
    validateBooking (mkBooking { notes := some longNotes }) = false ∧
    validateBooking (mkBooking { garageNotes := some longNotes }) = false ∧
    validateBooking (mkBooking { garageId := some 1
                                 serviceType := some "repair"
                                 scheduledDate := some 0 }) = true :=
  ⟨booking_validation_bounds.1 _ rfl,
   booking_validation_bounds.2.1 _ longNotes rfl (by decide),
   booking_validation_bounds.2.2.1 _ longNotes rfl (by decide),
   booking_validation_bounds.2.2.2 _ rfl ⟨"repair", rfl, by decide⟩ rfl
     (by decide) (fun s h => Option.noConfusion h)
     (fun s h => Option.noConfusion h) (by decide) (by decide)⟩

/-- C10: every Booking must carry a serviceType from
{inspection, repair, maintenance, diagnostic}: validation rejects a
missing serviceType and any value outside the set, accepts each member
(in an otherwise well-formed booking), and acceptance implies
membership. -/
theorem booking_service_type_enum :
    (∀ i : BookingInput, i.serviceType = none →
      validateBooking (mkBooking i) = false) ∧
    (∀ (i : BookingInput) (s : String), i.serviceType = some s →
      s ∉ serviceTypes → validateBooking (mkBooking i) = false) ∧
    (∀ i : BookingInput, validateBooking (mkBooking i) = true →
      ∃ s, i.serviceType = some s ∧ s ∈ serviceTypes) ∧
    (∀ s ∈ serviceTypes,
      validateBooking (mkBooking { garageId := some 1
                                   serviceType := some s
                                   scheduledDate := some 0 }) = true) := by
  refine ⟨?_, ?_, ?_, ?_⟩
  · intro i h
    simp [validateBooking, mkBooking, h]
  · intro i s h hmem
    simp [validateBooking, mkBooking, h, hmem]
  · intro i hval
    cases hs : i.serviceType with
    | none => simp [validateBooking, mkBooking, hs] at hval
    | some s =>
        refine ⟨s, rfl, ?_⟩
        by_contra hmem
        simp [validateBooking, mkBooking, hs, hmem] at hval
  · intro s hs
    simp [serviceTypes] at hs
    rcases hs with h | h | h | h <;> subst h <;> decide

/-- Witness for C10: a missing serviceType and the out-of-enum value
"towing" are rejected; "inspection" is accepted. -/
theorem booking_service_type_enum_witness :
    validateBooking (mkBooking { garageId := some 1
                                 scheduledDate := some 0 }) = false ∧
    validateBooking (mkBooking { garageId := some 1
                                 serviceType := some "towing"
                                 scheduledDate := some 0 }) = false ∧
    validateBooking (mkBooking { garageId := some 1
                                 serviceType := some "inspection"
                                 scheduledDate := some 0 }) = true :=
  ⟨booking_service_type_enum.1 _ rfl,
   booking_service_type_enum.2.1 _ "towing" rfl (by decide),
   booking_service_type_enum.2.2.2 "inspection" (by decide)⟩
